import Mathlib

/-!
Verification development for the SundAI merch shop service
(src/main.py, src/printful_client.py).

Monetary amounts are modelled as exact rationals.  Python's built-in
round (round-half-to-even) is modelled by roundHalfEven below, and
round(x, 2) by round2.  Nullable Python values are modelled with Option;
Python truthiness tests on them are made explicit (truthyI, truthyS, ...).
Outbound HTTP calls (Printful, Stripe) are modelled as oracle arguments of
type Except, an error denoting a raised requests exception.
-/

namespace Shop

/-- Python round-half-to-even of a rational to the nearest integer. -/
def roundHalfEven (q : ℚ) : ℤ :=
  let n := ⌊q⌋
  let r := q - n
  if r < 1/2 then n
  else if 1/2 < r then n + 1
  else if n % 2 = 0 then n else n + 1

/-- Python round(x, 2): round-half-to-even at the second decimal. -/
def round2 (q : ℚ) : ℚ := (roundHalfEven (q * 100) : ℚ) / 100

/-- A rational that is an integer multiple of 1/100 (an exact cent amount). -/
def Cent (q : ℚ) : Prop := (q * 100).den = 1

instance (q : ℚ) : Decidable (Cent q) := by
  unfold Cent; infer_instance

theorem cent_iff (q : ℚ) : Cent q ↔ ∃ n : ℤ, q = (n : ℚ) / 100 := by
  constructor
  · intro h
    refine ⟨(q * 100).num, ?_⟩
    have h2 : ((q * 100).num : ℚ) = q * 100 := by
      rw [← Rat.den_eq_one_iff]; exact h
    rw [h2]
    ring
  · rintro ⟨n, rfl⟩
    unfold Cent
    have : ((n : ℚ) / 100) * 100 = (n : ℚ) := by ring
    rw [this, Rat.den_intCast]

theorem roundHalfEven_intCast (n : ℤ) : roundHalfEven (n : ℚ) = n := by
  unfold roundHalfEven
  simp [Int.floor_intCast]

theorem round2_cent (q : ℚ) : Cent (round2 q) := by
  rw [cent_iff]
  exact ⟨roundHalfEven (q * 100), rfl⟩

theorem round2_eq_self {q : ℚ} (h : Cent q) : round2 q = q := by
  rw [cent_iff] at h
  obtain ⟨n, rfl⟩ := h
  unfold round2
  have h1 : ((n : ℚ) / 100) * 100 = (n : ℚ) := by ring
  rw [h1, roundHalfEven_intCast]

theorem cent_add {a b : ℚ} (ha : Cent a) (hb : Cent b) : Cent (a + b) := by
  rw [cent_iff] at ha hb ⊢
  obtain ⟨n, rfl⟩ := ha
  obtain ⟨m, rfl⟩ := hb
  exact ⟨n + m, by push_cast; ring⟩

theorem cent_sub {a b : ℚ} (ha : Cent a) (hb : Cent b) : Cent (a - b) := by
  rw [cent_iff] at ha hb ⊢
  obtain ⟨n, rfl⟩ := ha
  obtain ⟨m, rfl⟩ := hb
  exact ⟨n - m, by push_cast; ring⟩

theorem cent_mul_int {a : ℚ} (ha : Cent a) (k : ℤ) : Cent (a * k) := by
  rw [cent_iff] at ha ⊢
  obtain ⟨n, rfl⟩ := ha
  exact ⟨n * k, by push_cast; ring⟩

theorem cent_zero : Cent 0 := by
  rw [cent_iff]
  exact ⟨0, by norm_num⟩

/-- Distance from the half-even rounding is at most one half. -/
theorem abs_roundHalfEven_sub_le (x : ℚ) : |(roundHalfEven x : ℚ) - x| ≤ 1/2 := by
  unfold roundHalfEven
  have h0 : (0 : ℚ) ≤ x - ⌊x⌋ := by
    have := Int.floor_le x; linarith
  have h1 : x - ⌊x⌋ < 1 := by
    have := Int.lt_floor_add_one x; linarith
  by_cases hlt : x - ⌊x⌋ < 1/2
  · simp only [hlt, if_true]
    rw [abs_le]; constructor <;> linarith
  · by_cases hgt : 1/2 < x - ⌊x⌋
    · simp only [hlt, if_false, hgt, if_true]
      push_cast
      rw [abs_le]; constructor <;> linarith
    · have heq : x - ⌊x⌋ = 1/2 := le_antisymm (not_lt.mp hgt) (not_lt.mp hlt)
      simp only [hlt, if_false, hgt, if_false]
      by_cases hpar : ⌊x⌋ % 2 = 0
      · simp only [hpar, if_true]
        rw [abs_le]; constructor <;> linarith
      · simp only [hpar, if_false]
        push_cast
        rw [abs_le]; constructor <;> linarith

/-- Away from a tie, the rounding distance is strictly below one half. -/
theorem abs_roundHalfEven_sub_lt (x : ℚ) (h : x - ⌊x⌋ ≠ 1/2) :
    |(roundHalfEven x : ℚ) - x| < 1/2 := by
  unfold roundHalfEven
  have h0 : (0 : ℚ) ≤ x - ⌊x⌋ := by
    have := Int.floor_le x; linarith
  have h1 : x - ⌊x⌋ < 1 := by
    have := Int.lt_floor_add_one x; linarith
  by_cases hlt : x - ⌊x⌋ < 1/2
  · simp only [hlt, if_true]
    rw [abs_lt]; constructor <;> linarith
  · have hgt : 1/2 < x - ⌊x⌋ :=
      lt_of_le_of_ne (not_lt.mp hlt) (fun e => h e.symm)
    simp only [hlt, if_false, hgt, if_true]
    push_cast
    rw [abs_lt]; constructor <;> linarith

theorem abs_round2_sub_le (q : ℚ) : |round2 q - q| ≤ 1/200 := by
  unfold round2
  have h := abs_roundHalfEven_sub_le (q * 100)
  have h2 : (roundHalfEven (q * 100) : ℚ) / 100 - q
      = ((roundHalfEven (q * 100) : ℚ) - q * 100) / 100 := by ring
  rw [h2, abs_div]
  rw [show |(100 : ℚ)| = 100 by norm_num]
  rw [div_le_iff₀ (by norm_num : (0:ℚ) < 100)]
  linarith

theorem abs_round2_sub_lt (q : ℚ) (h : q * 100 - ⌊q * 100⌋ ≠ 1/2) :
    |round2 q - q| < 1/200 := by
  unfold round2
  have hlt := abs_roundHalfEven_sub_lt (q * 100) h
  have h2 : (roundHalfEven (q * 100) : ℚ) / 100 - q
      = ((roundHalfEven (q * 100) : ℚ) - q * 100) / 100 := by ring
  rw [h2, abs_div]
  rw [show |(100 : ℚ)| = 100 by norm_num]
  rw [div_lt_iff₀ (by norm_num : (0:ℚ) < 100)]
  linarith

/-! ## Data model (src/main.py pydantic models and session dict shapes) -/

/-- Entry of a variant's files array: the type tag and preview URL keys. -/
structure VFile where
  ftype : Option String
  preview_url : Option String
deriving DecidableEq

/-- Nested product dict carried on a sync variant. -/
structure VProduct where
  image : Option String
  preview_image : Option String
  name : Option String
  product_id : Option Int
  variant_id : Option Int
deriving DecidableEq

/-- Raw variant record as stored on a Product (a Printful variant dict). -/
structure Variant where
  id : Option Int
  variant_id : Option Int
  name : Option String
  retail_price : Option ℚ
  price : Option ℚ
  in_stock : Option Bool
  available : Option Bool
  availability_status : Option String
  files : List VFile
  product : Option VProduct
deriving DecidableEq

/-- The Product pydantic model of src/main.py. -/
structure Product where
  id : Int
  name : String
  description : String
  price : ℚ
  price_range : Option String
  image_url : String
  sizes : List String
  in_stock : Bool
  printful_product_id : Option Int
  variants : Option (List Variant)
deriving DecidableEq

/-- Cart item dict as stored in the session by add_to_cart. -/
structure CartItemS where
  product_id : Int
  size : Option String
  quantity : Int
  variant_id : Option Int
  variant_price : Option ℚ
  sync_variant_id : Option Int
deriving DecidableEq

/-- The RecipientInfo pydantic model. -/
structure RecipientInfo where
  name : String
  address1 : String
  city : String
  state : String
  zip : String
  country : String
  email : Option String
  phone : Option String
deriving DecidableEq

/-- Recipient payload shaped for Printful by build_printful_recipient. -/
structure RecipientPayload where
  name : String
  address1 : String
  city : String
  state_code : String
  zip : String
  country_code : String
  email : Option String
  phone : Option String
deriving DecidableEq

/-- One shipping rate returned by the Printful shipping-rates call. -/
structure Rate where
  id : Option String
  name : Option String
  rate : Option ℚ
deriving DecidableEq

/-- Normalized cost block from a Printful estimate (normalize_costs output). -/
structure CostBlock where
  currency : Option String
  subtotal : Option ℚ
  discount : Option ℚ
  shipping : Option ℚ
  tax : Option ℚ
  vat : Option ℚ
  total : Option ℚ
deriving DecidableEq

/-- Result block of a Printful estimate response (costs and retail_costs). -/
structure EstimateResult where
  costs : Option CostBlock
  retail_costs : Option CostBlock
deriving DecidableEq

/-- Reallocated per-line entry built by compute_order_details. -/
structure CartEntry where
  product_id : Int
  variant_id : Int
  quantity : Int
  unit_price : ℚ
  size : Option String
  name : String
deriving DecidableEq

/-- Item of the Printful-facing order payload. -/
structure PrintfulItem where
  quantity : Int
  sync_variant_id : Option Int
  source : Option String
  variant_id : Option Int
deriving DecidableEq

/-- Item of the shipping-rates request payload (lines 242-249 of main.py). -/
structure ShipItem where
  variant_id : String
  quantity : Int
  value : String
deriving DecidableEq

/-- Locally computed retail cost breakdown. -/
structure RetailBreakdown where
  currency : String
  subtotal : ℚ
  shipping : ℚ
  tax : ℚ
  discount : ℚ
  total : ℚ
deriving DecidableEq

/-- Return value of compute_order_details. -/
structure OrderDetails where
  subtotal : ℚ
  shipping_cost : ℚ
  shipping_note : String
  tax_amount : ℚ
  tax_note : String
  total : ℚ
  cost_source : String
  retail_subtotal : ℚ
  printful_costs : Option CostBlock
  retail_costs : Sum CostBlock RetailBreakdown
  shipping_method_id : Option String
  printful_recipient : RecipientPayload
  shipping_rates : List Rate
  selected_shipping_rate : Option Rate
  printful_items : List PrintfulItem
  cart_entries : List CartEntry
deriving DecidableEq

/-- The two HTTPException(400) failures of compute_order_details. -/
inductive OrderError
| cartEmpty
| noValidItems
deriving DecidableEq

/-- Python truthiness of an optional integer (None and 0 are falsy). -/
def truthyI : Option Int → Bool
  | none => false
  | some n => if n = 0 then false else true

/-- Python truthiness of an optional string (None and the empty string are falsy). -/
def truthyS : Option String → Bool
  | none => false
  | some s => if s = "" then false else true

/-- Python truthiness of an optional number (None and 0 are falsy). -/
def truthyQ : Option ℚ → Bool
  | none => false
  | some q => if q = 0 then false else true

/-- Default of ESTIMATED_TAX_RATE = float(os.getenv(..., "0.085")). -/
def ESTIMATED_TAX_RATE : ℚ := 17/200

/-- Map the recipient info into the structure Printful expects (main.py 116-131). -/
def build_printful_recipient (r : RecipientInfo) : RecipientPayload :=
  { name := r.name, address1 := r.address1, city := r.city, state_code := r.state,
    zip := r.zip,
    country_code := if r.country = "" then "US" else r.country,
    email := if truthyS r.email then r.email else none,
    phone := if truthyS r.phone then r.phone else none }

/-! ## Variant resolution (main.py 157-197) -/

/-- Lookup of a product in the cache by id (main.py line 158). -/
def findProduct (products : List Product) (pid : Int) : Option Product :=
  products.find? (fun p => p.id == pid)

/-- The expression variant.get("variant_id") or variant.get("id") (main.py 173, 185). -/
def candidateId (v : Variant) : Option Int :=
  if truthyI v.variant_id then v.variant_id else v.id

/-- Match by sync-variant identifier (main.py 166-169). -/
def syncMatches (s0 : Option Int) (v : Variant) : Bool :=
  match s0 with
  | none => false
  | some n => v.id == some n

/-- Match by variant identifier against candidate variant/sync ids (main.py 172-176). -/
def vidMatches (v0 : Option Int) (v : Variant) : Bool :=
  (candidateId v).isSome && (candidateId v == v0)

/-- Match by size-label equality (main.py 179-182). -/
def sizeMatches (size : Option String) (v : Variant) : Bool :=
  v.name == size

/-- One Python for-loop scanning the variants and keeping the first hit. -/
def findVariantBy (p : Variant → Bool) : List Variant → Option Variant
  | [] => none
  | v :: rest => if p v then some v else findVariantBy p rest

/-- The three matching loops of main.py 165-182, first match winning. -/
def resolveMatchedVariant (item : CartItemS) (vs : List Variant) : Option Variant :=
  match findVariantBy (syncMatches item.sync_variant_id) vs with
  | some v => some v
  | none =>
    match (if item.variant_id.isSome then findVariantBy (vidMatches item.variant_id) vs
           else none) with
    | some v => some v
    | none => findVariantBy (sizeMatches item.size) vs

/-- Modelled from the spec: resolution tries, in order, (a) match by
sync-variant identifier when the entry carries one, (b) else match by variant
identifier against each candidate's own variant/sync identifiers, (c) else
match by size-label equality, with the first match winning. -/
def specResolve (item : CartItemS) (vs : List Variant) : Option Variant :=
  match vs.find? (syncMatches item.sync_variant_id) with
  | some v => some v
  | none =>
    match (if item.variant_id.isSome then vs.find? (vidMatches item.variant_id)
           else none) with
    | some v => some v
    | none => vs.find? (sizeMatches item.size)

/-- The variant list guarded by the truthiness test of main.py line 164. -/
def productVariantList (products : List Product) (item : CartItemS) : List Variant :=
  match findProduct products item.product_id with
  | none => []
  | some p =>
    match p.variants with
    | none => []
    | some vs => vs

/-- Matched variant of a cart entry, none when product or variants are missing. -/
def entryMatchedVariant (products : List Product) (item : CartItemS) : Option Variant :=
  let vs := productVariantList products item
  if vs.isEmpty then none else resolveMatchedVariant item vs

/-- The coercion int(cart_item.get("quantity", 1) or 1) (main.py line 211). -/
def pyQty (q : Int) : Int := if q = 0 then 1 else q

/-- Unit price resolution (main.py 199-204): the captured variant_price when
present, else the cached product price when the product is known. -/
def entryUnitPrice (products : List Product) (item : CartItemS) : Option ℚ :=
  match item.variant_price with
  | some p => some p
  | none => (findProduct products item.product_id).map (fun p => p.price)

/-- Per-entry body of the first loop of compute_order_details (main.py 157-236):
returns the (possibly mutated in place) stored cart item, and, when the entry is
resolvable, the Printful item, the per-line entry and the subtotal contribution. -/
def processEntry (products : List Product) (item : CartItemS) :
    CartItemS × Option (PrintfulItem × CartEntry × ℚ) :=
  let product := findProduct products item.product_id
  let matched := entryMatchedVariant products item
  let variant_id : Option Int :=
    match matched with
    | some m => candidateId m
    | none => item.variant_id
  let sync_variant_id : Option Int :=
    match matched with
    | some m => m.id
    | none => item.sync_variant_id
  let item1 : CartItemS :=
    match matched with
    | some m => { item with variant_id := candidateId m, sync_variant_id := m.id }
    | none => item
  if truthyI variant_id then
    let vid := variant_id.getD 0
    let item2 := { item1 with variant_id := some vid }
    match entryUnitPrice products item with
    | none => (item2, none)
    | some up =>
      let quantity := pyQty item.quantity
      let pitem : PrintfulItem :=
        if truthyI sync_variant_id then
          { quantity := quantity, sync_variant_id := some (sync_variant_id.getD 0),
            source := some "sync", variant_id := none }
        else
          { quantity := quantity, sync_variant_id := none, source := none,
            variant_id := some vid }
      let entry : CartEntry :=
        { product_id := item.product_id, variant_id := vid, quantity := quantity,
          unit_price := round2 up, size := item.size,
          name :=
            match product with
            | some p => p.name
            | none => "Product " ++ toString item.product_id }
      (item2, some (pitem, entry, up * (quantity : ℚ)))
  else (item1, none)

/-- Outputs of the first loop over the whole cart. -/
def cartOutputs (products : List Product) (cart : List CartItemS) :
    List (PrintfulItem × CartEntry × ℚ) :=
  (cart.map (processEntry products)).filterMap (fun pr => pr.2)

/-- Printful-facing order items built from the cart. -/
def printfulItemsOf (products : List Product) (cart : List CartItemS) :
    List PrintfulItem :=
  (cartOutputs products cart).map (fun o => o.1)

/-- Items of the shipping-rates payload, built from the mutated cart
(main.py 242-249). -/
def shipItemsOf (cart1 : List CartItemS) : List ShipItem :=
  cart1.filterMap (fun ci =>
    if truthyI ci.variant_id then
      some { variant_id := toString (ci.variant_id.getD 0),
             quantity := ci.quantity,
             value :=
               match ci.variant_price with
               | none => "0.00"
               | some p => toString p }
    else none)

/-! ## Shipping outcome (main.py 253-280) -/

/-- Shipping data selected by compute_order_details. -/
structure ShipOutcome where
  rates : List Rate
  selected : Option Rate
  cost : ℚ
  note : String
deriving DecidableEq

/-- Shipping cost/note selection of main.py 253-280: on a raised call or an
empty rate list, cost 9.99 and the "Fallback estimate" note (the transient
"Estimated" note set at 265/271 is always overwritten at 275-280); otherwise
the first rate is selected and the note names it. -/
def shippingOutcome (sresp : Except Unit (List Rate)) : ShipOutcome :=
  match sresp with
  | .error _ => { rates := [], selected := none, cost := 999/100, note := "Fallback estimate" }
  | .ok rates =>
    match rates with
    | [] => { rates := [], selected := none, cost := 999/100, note := "Fallback estimate" }
    | r :: rest =>
      { rates := r :: rest, selected := some r,
        cost := r.rate.getD 0,
        note := (r.name.getD "Standard") ++ " via Printful" }

/-! ## Subtotal redistribution (main.py 342-368) -/

/-- Sum of unit_price times quantity over per-line entries. -/
def lineSum (entries : List CartEntry) : ℚ :=
  (entries.map (fun e => e.unit_price * (e.quantity : ℚ))).sum

/-- Total quantity over per-line entries. -/
def sumQty (entries : List CartEntry) : Int :=
  (entries.map (fun e => e.quantity)).sum

/-- Proportional rescaling of every line's unit price (main.py 350-353). -/
def scaleEntries (entries : List CartEntry) (desired current : ℚ) : List CartEntry :=
  entries.map (fun e => { e with unit_price := round2 (e.unit_price * (desired / current)) })

/-- Even per-unit distribution for the all-zero case (main.py 355-360). -/
def evenEntries (entries : List CartEntry) (per : ℚ) : List CartEntry :=
  entries.map (fun e => { e with unit_price := per })

/-- Remainder correction on the last line (main.py 363-368): the whole diff,
divided by that line's quantity, is added to its unit price and re-rounded. -/
def setLastUnit (entries : List CartEntry) (diff : ℚ) : List CartEntry :=
  match entries.getLast? with
  | none => entries
  | some l =>
    entries.dropLast ++
      [{ l with unit_price := round2 (l.unit_price + diff / ((max l.quantity 1 : Int) : ℚ)) }]

/-- Scaling phase of the redistribution (main.py 344-360), returning the
adjusted entries and the accumulated adjusted_line_total. -/
def redistributeCore (entries : List CartEntry) (desired : ℚ) : List CartEntry × ℚ :=
  let current := round2 (lineSum entries)
  if 0 < current then
    let es := scaleEntries entries desired current
    (es, lineSum es)
  else
    let totq := sumQty entries
    if 0 < totq then
      let es := evenEntries entries (round2 (desired / (totq : ℚ)))
      (es, lineSum es)
    else (entries, 0)

/-- Full redistribution of the authoritative subtotal across the per-line
entries (main.py 342-368, inside the printful-costs branch). -/
def redistributeEntries (entries : List CartEntry) (desired : ℚ) : List CartEntry :=
  if 0 < desired ∧ entries ≠ [] then
    let scaled := redistributeCore entries desired
    let diff := round2 (desired - scaled.2)
    if 1/100 ≤ |diff| ∧ scaled.1 ≠ [] then setLastUnit scaled.1 diff else scaled.1
  else entries

/-! ## The cost-estimate call (main.py 314-320 against printful_client.py 88-91) -/

/-- Parameters accepted by PrintfulClient.estimate_costs (printful_client.py 88). -/
def estimateCostsAcceptedKwargs : List String := ["items"]

/-- Keyword arguments passed by compute_order_details (main.py 315-320). -/
def computeEstimateCallKwargs : List String := ["recipient", "items", "shipping", "retail_costs"]

/-- A Python keyword call succeeds only when every given keyword is accepted;
otherwise the call raises TypeError before the body runs. -/
def pythonKwargsOk (accepted given : List String) : Bool :=
  given.all (fun k => accepted.contains k)

/-! ## compute_order_details (main.py 133-392) -/

/-- Cart as left in the session after the first loop of compute_order_details,
which writes resolved identifiers back into the stored items. -/
def processedCart (products : List Product) (cart : List CartItemS) : List CartItemS :=
  cart.map (fun item => (processEntry products item).1)

/-- Normalized costs obtained from the estimate call of main.py 314-325.  The
client function accepts only an items parameter (printful_client.py 88), while
the call passes four keyword arguments, so a TypeError is raised and caught
and the pair stays empty. -/
def estimateCallCosts (eresp : Except Unit EstimateResult) :
    Option CostBlock × Option CostBlock :=
  if pythonKwargsOk estimateCostsAcceptedKwargs computeEstimateCallKwargs then
    match eresp with
    | .ok er => (er.costs, er.retail_costs)
    | .error _ => (none, none)
  else (none, none)

/-- Locally computed retail breakdown (main.py 292-299). -/
def retailBreakdownOf (products : List Product) (cart : List CartItemS)
    (sresp : Except Unit (List Rate)) : RetailBreakdown :=
  let retail_subtotal := ((cartOutputs products cart).map (fun o => o.2.2)).sum
  let so := shippingOutcome sresp
  let tax_amount := retail_subtotal * ESTIMATED_TAX_RATE
  { currency := "USD", subtotal := round2 retail_subtotal, shipping := round2 so.cost,
    tax := round2 tax_amount, discount := 0,
    total := round2 (retail_subtotal + so.cost + tax_amount) }

/-- Order details of the branch without usable provider costs
(main.py 369-392): every component is the locally computed one, rounded. -/
def estimatedDetails (products : List Product) (cart : List CartItemS)
    (recipient : RecipientInfo) (sresp : Except Unit (List Rate))
    (prc : Option CostBlock) : OrderDetails :=
  let outs := cartOutputs products cart
  let retail_subtotal := (outs.map (fun o => o.2.2)).sum
  let so := shippingOutcome sresp
  let tax_amount := retail_subtotal * ESTIMATED_TAX_RATE
  { subtotal := round2 retail_subtotal, shipping_cost := round2 so.cost,
    shipping_note := so.note, tax_amount := round2 tax_amount, tax_note := "Estimated",
    total := round2 (retail_subtotal + so.cost + tax_amount),
    cost_source := "estimated", retail_subtotal := round2 retail_subtotal,
    printful_costs := none,
    retail_costs :=
      match prc with
      | some p => Sum.inl p
      | none => Sum.inr (retailBreakdownOf products cart sresp),
    shipping_method_id := so.selected.bind (fun r => r.id),
    printful_recipient := build_printful_recipient recipient,
    shipping_rates := so.rates, selected_shipping_rate := so.selected,
    printful_items := outs.map (fun o => o.1),
    cart_entries := outs.map (fun o => o.2.1) }

/-- Order details of the branch with usable provider costs (main.py 327-368):
provider numbers override field by field, notes switch to the provider, and
the per-line entries are redistributed to the authoritative subtotal. -/
def printfulDetails (products : List Product) (cart : List CartItemS)
    (recipient : RecipientInfo) (sresp : Except Unit (List Rate))
    (pc : CostBlock) (prc : Option CostBlock) : OrderDetails :=
  let outs := cartOutputs products cart
  let retail_subtotal := (outs.map (fun o => o.2.2)).sum
  let so := shippingOutcome sresp
  let tax_amount := retail_subtotal * ESTIMATED_TAX_RATE
  let subtotal2 := round2 (pc.subtotal.getD retail_subtotal)
  let shipping2 := round2 (pc.shipping.getD so.cost)
  let tax2 := round2 (pc.tax.getD (pc.vat.getD tax_amount))
  { subtotal := subtotal2, shipping_cost := shipping2,
    shipping_note := if so.rates.isEmpty then "Printful rate" else so.note,
    tax_amount := tax2, tax_note := "Printful",
    total := round2 (pc.total.getD (subtotal2 + shipping2 + tax2)),
    cost_source := "printful", retail_subtotal := round2 retail_subtotal,
    printful_costs := some pc,
    retail_costs :=
      match prc with
      | some p => Sum.inl p
      | none => Sum.inr (retailBreakdownOf products cart sresp),
    shipping_method_id := so.selected.bind (fun r => r.id),
    printful_recipient := build_printful_recipient recipient,
    shipping_rates := so.rates, selected_shipping_rate := so.selected,
    printful_items := outs.map (fun o => o.1),
    cart_entries := redistributeEntries (outs.map (fun o => o.2.1)) subtotal2 }

/-- Shallow embedding of compute_order_details (main.py 133-392).  The
products argument is the populated products_cache; sresp and eresp are the
Printful shipping-rates and order-estimate responses (an .error models a
raised request).  The returned pair carries the order details and the cart as
left in the session (the function mutates the stored cart items in place).
The shipping-rates request payload is shipItemsOf (processedCart products
cart); the sresp oracle stands for its response. -/
def compute_order_details (products : List Product) (cart : List CartItemS)
    (recipient : RecipientInfo) (sresp : Except Unit (List Rate))
    (eresp : Except Unit EstimateResult) :
    Except OrderError (OrderDetails × List CartItemS) :=
  if cart.isEmpty then .error .cartEmpty
  else if (printfulItemsOf products cart).isEmpty then .error .noValidItems
  else
    match (estimateCallCosts eresp).1 with
    | some pc =>
      .ok (printfulDetails products cart recipient sresp pc (estimateCallCosts eresp).2,
           processedCart products cart)
    | none =>
      .ok (estimatedDetails products cart recipient sresp (estimateCallCosts eresp).2,
           processedCart products cart)

/-! ## Stripe line items of create_checkout_session (main.py 891-933) -/

/-- One Stripe checkout line item (price_data plus quantity). -/
structure LineItem where
  name : String
  description : Option String
  unit_amount : Int
  quantity : Int
deriving DecidableEq

/-- The Stripe unit amount int(round(unit_price * 100)) of a per-line entry. -/
def lineAmount (e : CartEntry) : Int := roundHalfEven (e.unit_price * 100)

/-- Stripe line item built from a per-line entry (main.py 897-910). -/
def mkEntryLineItem (e : CartEntry) : LineItem :=
  { name := e.name,
    description :=
      match e.size with
      | some s => if s = "" then none else some ("Size: " ++ s)
      | none => none,
    unit_amount := lineAmount e, quantity := e.quantity }

/-- Per-entry Stripe line items; entries with non-positive amount are skipped
(main.py 892-910). -/
def entryLineItems (entries : List CartEntry) : List LineItem :=
  entries.filterMap (fun e => if lineAmount e ≤ 0 then none else some (mkEntryLineItem e))

/-- Optional shipping line item (main.py 912-920). -/
def shippingLineItems (od : OrderDetails) : List LineItem :=
  if 0 < od.shipping_cost then
    [{ name := "Shipping", description := none,
       unit_amount := roundHalfEven (od.shipping_cost * 100), quantity := 1 }]
  else []

/-- Optional taxes line item (main.py 922-930). -/
def taxLineItems (od : OrderDetails) : List LineItem :=
  if 0 < od.tax_amount then
    [{ name := "Taxes", description := none,
       unit_amount := roundHalfEven (od.tax_amount * 100), quantity := 1 }]
  else []

/-- Line-item assembly of create_checkout_session, raising the 400
"Unable to create checkout session without priced items" when empty
(main.py 891-933). -/
def buildLineItems (od : OrderDetails) : Except Unit (List LineItem) :=
  let items := entryLineItems od.cart_entries ++ shippingLineItems od ++ taxLineItems od
  if items.isEmpty then .error () else .ok items

/-! ## complete_checkout (main.py 1034-1095) -/

/-- Cost summary persisted with a pending order. -/
structure OrderSummary where
  subtotal : ℚ
  shipping : ℚ
  tax : ℚ
  total : ℚ
deriving DecidableEq

/-- Printful order payload stored with a pending order (main.py 1007-1019). -/
structure PrintfulOrderPayload where
  recipient : RecipientPayload
  items : List PrintfulItem
  shipping : String
  retail_costs : OrderSummary
  confirm : Bool
deriving DecidableEq

/-- Pending-order record stored in the session (main.py 1005-1027, 1083-1089). -/
structure PendingOrder where
  checkout_session_id : String
  printful_order : Option PrintfulOrderPayload
  fulfilled : Bool
  order_id : Option Int
  summary : Option OrderSummary
deriving DecidableEq

/-- Session state relevant to checkout completion. -/
structure SessionState where
  cart : List CartItemS
  pending_order : Option PendingOrder
deriving DecidableEq

/-- Result block of a Printful create-order response. -/
structure PrintfulOrderResult where
  id : Option Int
deriving DecidableEq

/-- Failure modes of complete_checkout. -/
inductive CompleteError
| stripeNotConfigured
| noMatchingOrder
| invalidCheckoutSession
| paymentNotCompleted
| missingPendingPayload
| missingDesignFiles
| fulfillmentFailed
deriving DecidableEq

/-- Response body of complete_checkout. -/
structure CompleteResult where
  message : String
  order_id : Option Int
  order : Option PrintfulOrderResult
  summary : Option OrderSummary
deriving DecidableEq

/-- The "print files" check of main.py 1069-1070 on the provider error text. -/
def mentionsPrintFiles (msg : String) : Bool :=
  (msg.toLower.splitOn "print files").length > 1

/-- Shallow embedding of complete_checkout.  stripeResp carries the retrieved
checkout-session payment status; printfulResp is the create-order call, whose
error side carries the provider message.  The Bool of the result records
whether a Printful order-creation call was issued during the request. -/
def complete_checkout (stripeConfigured : Bool) (st : SessionState) (session_id : String)
    (stripeResp : Except Unit String) (printfulResp : Except String PrintfulOrderResult) :
    Except CompleteError (CompleteResult × SessionState × Bool) :=
  if stripeConfigured = false then .error .stripeNotConfigured else
  match st.pending_order with
  | none => .error .noMatchingOrder
  | some po =>
    if po.checkout_session_id ≠ session_id then .error .noMatchingOrder else
    if po.fulfilled then
      .ok ({ message := "Order already fulfilled", order_id := po.order_id,
             order := none, summary := po.summary }, st, false)
    else
      match stripeResp with
      | .error _ => .error .invalidCheckoutSession
      | .ok payment_status =>
        if payment_status ≠ "paid" then .error .paymentNotCompleted else
        match po.printful_order with
        | none => .error .missingPendingPayload
        | some _payload =>
          match printfulResp with
          | .error msg =>
            if mentionsPrintFiles msg then .error .missingDesignFiles
            else .error .fulfillmentFailed
          | .ok result =>
            let record : PendingOrder :=
              { checkout_session_id := session_id, printful_order := none,
                fulfilled := true, order_id := result.id, summary := po.summary }
            .ok ({ message := "Order fulfilled successfully", order_id := none,
                   order := some result, summary := po.summary },
                 { cart := [], pending_order := some record }, true)

/-! ## Catalog normalization: convert_printful_to_product (main.py 422-568) -/

/-- Raw variants field: either a count (store product) or an array. -/
inductive RawVariantsField
| count (n : Int)
| listed (vs : List Variant)
deriving DecidableEq

/-- Raw Printful product record as consumed by convert_printful_to_product. -/
structure RawPrintfulProduct where
  id : Int
  name : Option String
  thumbnail_url : Option String
  variants : RawVariantsField
deriving DecidableEq

/-- Result block of the product-detail response used when fetching variants. -/
structure ProductDetailResult where
  variants : Option (List Variant)
  sync_variants : Option (List Variant)
deriving DecidableEq

/-- Main-category block of a catalog product response (main.py 488-492). -/
structure MainCategory where
  name : Option String
  gender : Option String
  parent_name : Option String
deriving DecidableEq

/-- Variant fetching of main.py 432-458: when the raw variants field is a
positive count and fetch_variants holds, the product detail is fetched, with
the dedicated variants endpoint as fallback; any raised call yields []. -/
def fetchedVariants (fetch_variants : Bool) (raw : RawPrintfulProduct)
    (detailResp : Except Unit ProductDetailResult)
    (variantsResp : Except Unit (List Variant)) : List Variant :=
  match raw.variants with
  | .count n =>
    if fetch_variants ∧ 0 < n then
      match detailResp with
      | .error _ => []
      | .ok r =>
        let vs := r.variants.getD (r.sync_variants.getD [])
        if vs.isEmpty then
          match variantsResp with
          | .error _ => []
          | .ok vs2 => vs2
        else vs
    else []
  | .listed vs => vs

/-- First mockup/preview file of a variant carrying a preview URL (main.py 472). -/
def findMockupUrl (files : List VFile) : Option String :=
  match files.find? (fun f =>
      ((f.ftype == some "mockup") || (f.ftype == some "preview")) && truthyS f.preview_url) with
  | some f => f.preview_url
  | none => none

/-- Mutable locals of the image-selection loop of main.py 467-496.  The pid
field tracks the product_id variable, which the loop rebinds from variant
metadata (main.py 482) and which the final Product constructor consumes. -/
structure ImgState where
  mockup : Option String
  fallback : Option String
  cat : Option String
  nameFromMeta : Option String
  pid : Option Int
deriving DecidableEq

/-- The image-selection loop (main.py 470-494): stops at the first variant
with a mockup file; otherwise remembers the first variant product image and,
while no catalog category is known, rebinds product_id from variant metadata
and attempts a catalog-metadata fetch whose failure is swallowed. -/
def imageScan (metaResp : Int → Except Unit (Option MainCategory)) :
    List Variant → ImgState → ImgState
  | [], st => st
  | v :: rest, st =>
    match findMockupUrl v.files with
    | some url => { st with mockup := some url }
    | none =>
      let pimgA := v.product.bind (fun p => p.image)
      let pimgB := v.product.bind (fun p => p.preview_image)
      let pimg := if truthyS pimgA then pimgA else pimgB
      let st1 := if truthyS pimg ∧ ¬ truthyS st.fallback then { st with fallback := pimg } else st
      let st2 :=
        if ¬ truthyS st1.cat then
          let meta := v.product
          let stm : ImgState :=
            { st1 with
              nameFromMeta :=
                if truthyS st1.nameFromMeta then st1.nameFromMeta
                else meta.bind (fun p => p.name),
              pid := meta.bind (fun p => p.product_id) }
          let mvid := meta.bind (fun p => p.variant_id)
          if truthyI stm.pid ∧ truthyI mvid then
            match metaResp (stm.pid.getD 0) with
            | .ok (some mc) => { stm with cat := mc.name }
            | .ok none => stm
            | .error _ => stm
          else stm
        else st1
      imageScan metaResp rest st2

/-- Normalized availability of one variant (main.py 507-514). -/
def variantInStock (v : Variant) : Bool :=
  let availability := v.availability_status.getD "available"
  match v.in_stock with
  | some b => b
  | none =>
    match v.available with
    | some b => b
    | none => availability == "available" || availability == "active"

/-- Derived price of one variant: retail_price verbatim when truthy, else
price divided by 100, else 0 (main.py 522-526). -/
def variantDerivedPrice (v : Variant) : ℚ :=
  if truthyQ v.retail_price then v.retail_price.getD 0
  else if truthyQ v.price then (v.price.getD 0) / 100
  else 0

/-- Fixed two-decimal rendering used by the price-range f-string. -/
def fmt2 (q : ℚ) : String :=
  let c := roundHalfEven (q * 100)
  let sign := if c < 0 then "-" else ""
  let a := c.natAbs
  let frac := a % 100
  let fracs := if frac < 10 then "0" ++ toString frac else toString frac
  sign ++ toString (a / 100) ++ "." ++ fracs

/-- Min/max tracking over positively-priced variants (main.py 517-531):
the first component is the running minimum (none standing for float inf). -/
def priceScan (variants : List Variant) : Option ℚ × ℚ :=
  variants.foldl
    (fun (mm : Option ℚ × ℚ) v =>
      let p := variantDerivedPrice v
      if 0 < p then
        (some (match mm.1 with
               | none => p
               | some m => min m p),
         max mm.2 p)
      else mm)
    (none, 0)

/-- Shallow embedding of convert_printful_to_product.  The detailResp,
variantsResp and metaResp oracles are the Printful calls the conversion may
issue; a pydantic validation failure of the final constructor (the raw id
having been rebound to None by the image loop) is the .error case, which
get_products_from_printful turns into dropping the product. -/
def convert_printful_to_product (raw : RawPrintfulProduct) (fetch_variants : Bool)
    (detailResp : Except Unit ProductDetailResult)
    (variantsResp : Except Unit (List Variant))
    (metaResp : Int → Except Unit (Option MainCategory)) : Except Unit Product :=
  let name := raw.name.getD "Unknown Product"
  let variants := fetchedVariants fetch_variants raw detailResp variantsResp
  let base_image :=
    if truthyS raw.thumbnail_url then raw.thumbnail_url.getD ""
    else "/static/images/placeholder.jpg"
  let st0 : ImgState :=
    { mockup := none, fallback := none, cat := none, nameFromMeta := none,
      pid := some raw.id }
  let st := if variants.isEmpty then st0 else imageScan metaResp variants st0
  let image_url :=
    if truthyS st.mockup then st.mockup.getD ""
    else if truthyS st.fallback then st.fallback.getD ""
    else base_image
  let sizes := variants.foldl
    (fun acc v =>
      let s := v.name.getD "One Size"
      if s ∈ acc then acc else acc ++ [s]) []
  let in_stock := variants.any variantInStock
  let mm := priceScan variants
  let pr : ℚ × Option String :=
    match mm.1 with
    | none => (0, none)
    | some mn =>
      if mn = mm.2 then (mm.2, none)
      else (mn, some ("$" ++ fmt2 mn ++ " - " ++ fmt2 mm.2))
  match st.pid with
  | none => .error ()
  | some pid =>
    .ok { id := pid, name := name,
          description := "High-quality " ++ name.toLower ++ " from SundAI",
          price := pr.1, price_range := pr.2, image_url := image_url,
          sizes := if sizes.isEmpty then ["One Size"] else sizes,
          in_stock := in_stock, printful_product_id := some pid,
          variants := some variants }

/-! ## Concrete example inputs used by witnesses and counterexamples -/

/-- Example cart with one resolvable entry priced at 10.00 for quantity 2. -/
def w2cart : List CartItemS :=
  [{ product_id := 1, size := none, quantity := 2, variant_id := some 5,
     variant_price := some 10, sync_variant_id := none }]

/-- Example recipient. -/
def w2recip : RecipientInfo :=
  { name := "Jane Doe", address1 := "1 Main St", city := "Boston", state := "MA",
    zip := "02101", country := "US", email := none, phone := none }

/-- Example variant with size label M. -/
def w10variant : Variant :=
  { id := some 77, variant_id := some 42, name := some "M", retail_price := none,
    price := none, in_stock := none, available := none, availability_status := none,
    files := [], product := none }

/-- Example catalog with one product carrying w10variant. -/
def w10products : List Product :=
  [{ id := 1, name := "Tee", description := "d", price := 12, price_range := none,
     image_url := "u", sizes := ["M"], in_stock := true, printful_product_id := some 1,
     variants := some [w10variant] }]

/-- Example cart item resolvable only through its size label. -/
def w10item : CartItemS :=
  { product_id := 1, size := some "M", quantity := 1, variant_id := none,
    variant_price := some 5, sync_variant_id := none }

/-- Example cart holding w10item. -/
def w10cart : List CartItemS := [w10item]

/-- Example cart whose only entry has captured price 0. -/
def c5cart : List CartItemS :=
  [{ product_id := 1, size := none, quantity := 1, variant_id := some 5,
     variant_price := some 0, sync_variant_id := none }]

/-- Per-line entry produced for c5cart. -/
def c5entry : CartEntry :=
  { product_id := 1, variant_id := 5, quantity := 1, unit_price := 0, size := none,
    name := "Product " ++ toString (1 : Int) }

/-- Example per-line entry with quantity 3 priced at 10.00, as built by step 1
of the reconciliation for a cart of three units at a stale price. -/
def c1bad : CartEntry :=
  { product_id := 1, variant_id := 5, quantity := 3, unit_price := 10, size := none,
    name := "Tee" }

/-- Spec scenario entries: quantity 3 at 10.00 and quantity 1 at 5.00. -/
def c1pairA : CartEntry :=
  { product_id := 1, variant_id := 5, quantity := 3, unit_price := 10, size := none,
    name := "Tee" }

/-- Second spec scenario entry, quantity 1 at 5.00. -/
def c1pairB : CartEntry :=
  { product_id := 2, variant_id := 6, quantity := 1, unit_price := 5, size := none,
    name := "Cap" }

/-- Example fulfilled pending order. -/
def w7po : PendingOrder :=
  { checkout_session_id := "cs_1", printful_order := none, fulfilled := true,
    order_id := some 9, summary := some { subtotal := 20, shipping := 5, tax := 1, total := 26 } }

/-- Example session holding a fulfilled pending order. -/
def w7st : SessionState := { cart := w2cart, pending_order := some w7po }

/-- Example raw product whose variants field is the integer 0. -/
def w9raw : RawPrintfulProduct :=
  { id := 7, name := some "Cap", thumbnail_url := none, variants := RawVariantsField.count 0 }

/-! ## Reduction lemmas for compute_order_details -/

theorem estimateCallCosts_eq (eresp : Except Unit EstimateResult) :
    estimateCallCosts eresp = (none, none) := by
  unfold estimateCallCosts
  rfl

theorem compute_eq (products : List Product) (cart : List CartItemS)
    (recipient : RecipientInfo) (sresp : Except Unit (List Rate))
    (eresp : Except Unit EstimateResult) :
    compute_order_details products cart recipient sresp eresp =
      if cart.isEmpty then .error .cartEmpty
      else if (printfulItemsOf products cart).isEmpty then .error .noValidItems
      else .ok (estimatedDetails products cart recipient sresp none,
                processedCart products cart) := by
  unfold compute_order_details
  rw [estimateCallCosts_eq]

theorem printfulItems_empty_iff (products : List Product) (cart : List CartItemS) :
    printfulItemsOf products cart = [] ↔
      ∀ item ∈ cart, (processEntry products item).2 = none := by
  unfold printfulItemsOf cartOutputs
  rw [List.map_eq_nil_iff, List.filterMap_eq_nil_iff]
  constructor
  · intro h item hmem
    exact h _ (List.mem_map_of_mem _ hmem)
  · intro h pr hpr
    obtain ⟨item, hmem, rfl⟩ := List.mem_map.mp hpr
    exact h item hmem

/-- C2: the cost-estimate call of compute_order_details passes the keyword
arguments recipient, items, shipping and retail_costs to a client function
accepting only items, so it raises for every cart and recipient; consequently
printful_costs stays empty and the returned cost_source is always
"estimated". -/
theorem estimate_call_rejected_cost_source_estimated :
    pythonKwargsOk estimateCostsAcceptedKwargs computeEstimateCallKwargs = false
    ∧ ∀ products cart recipient sresp eresp od cart1,
        compute_order_details products cart recipient sresp eresp = .ok (od, cart1) →
        od.cost_source = "estimated" ∧ od.printful_costs = none := by
  refine ⟨by rfl, ?_⟩
  intro products cart recipient sresp eresp od cart1 h
  rw [compute_eq] at h
  by_cases h1 : cart.isEmpty
  · rw [if_pos h1] at h; exact absurd h (by simp)
  · rw [if_neg h1] at h
    by_cases h2 : (printfulItemsOf products cart).isEmpty
    · rw [if_pos h2] at h; exact absurd h (by simp)
    · rw [if_neg h2] at h
      simp only [Except.ok.injEq, Prod.mk.injEq] at h
      rw [← h.1]
      exact ⟨rfl, rfl⟩

/-- Witness for C2 at a concrete cart, recipient and failing provider calls. -/
theorem estimate_call_rejected_witness :
    (estimatedDetails [] w2cart w2recip (Except.error ()) none).cost_source = "estimated"
    ∧ (estimatedDetails [] w2cart w2recip (Except.error ()) none).printful_costs = none :=
  estimate_call_rejected_cost_source_estimated.2 [] w2cart w2recip
    (Except.error ()) (Except.error ())
    (estimatedDetails [] w2cart w2recip (Except.error ()) none)
    (processedCart [] w2cart)
    (by
      rw [compute_eq]
      have h1 : w2cart.isEmpty = false := by decide
      have h2 : (printfulItemsOf [] w2cart).isEmpty = false := by decide
      simp [h1, h2])

/-- C4: compute_order_details raises the empty-cart 400 error exactly when
the cart is empty, and the no-valid-items 400 error exactly when the cart is
nonempty but no entry resolves to a variant identifier and a usable unit
price (the per-entry processing yields nothing); otherwise it succeeds. -/
theorem empty_cart_error_iff (products : List Product) (cart : List CartItemS)
    (recipient : RecipientInfo) (sresp : Except Unit (List Rate))
    (eresp : Except Unit EstimateResult) :
    (compute_order_details products cart recipient sresp eresp = .error .cartEmpty
      ↔ cart = [])
    ∧ (compute_order_details products cart recipient sresp eresp = .error .noValidItems
      ↔ (cart ≠ [] ∧ ∀ item ∈ cart, (processEntry products item).2 = none)) := by
  rw [compute_eq]
  by_cases h1 : cart.isEmpty
  · have hc : cart = [] := List.isEmpty_iff.mp h1
    rw [if_pos h1]
    constructor
    · simp [hc]
    · simp [hc]
  · have hc : cart ≠ [] := by
      intro he; exact h1 (by simp [he])
    rw [if_neg h1]
    by_cases h2 : (printfulItemsOf products cart).isEmpty
    · rw [if_pos h2]
      have h3 : ∀ item ∈ cart, (processEntry products item).2 = none :=
        (printfulItems_empty_iff products cart).mp (List.isEmpty_iff.mp h2)
      constructor
      · simp [hc]
      · simp only [ne_eq, hc, not_false_eq_true, true_and]
        exact ⟨fun _ => h3, fun _ => trivial⟩
    · rw [if_neg h2]
      have h3 : ¬ ∀ item ∈ cart, (processEntry products item).2 = none := by
        intro hall
        exact h2 (by
          rw [List.isEmpty_iff]
          exact (printfulItems_empty_iff products cart).mpr hall)
      constructor
      · simp [hc]
      · simp [hc, h3]

/-! ## C3: total versus independently rounded components -/

/-- The subtotal and the derived tax cannot both sit on a rounding tie:
a subtotal tie forces subtotal*100 = k + 1/2, and then tax*100 =
(34k+17)/400 cannot have fractional part 1/2. -/
theorem not_tie_both (s : ℚ) :
    ¬((s * 100 - ⌊s * 100⌋ = 1/2)
      ∧ ((s * ESTIMATED_TAX_RATE) * 100 - ⌊(s * ESTIMATED_TAX_RATE) * 100⌋ = 1/2)) := by
  rintro ⟨h1, h2⟩
  set k := ⌊s * 100⌋ with hk
  set m := ⌊(s * ESTIMATED_TAX_RATE) * 100⌋ with hm
  have hs : s * 100 = (k : ℚ) + 1/2 := by linarith
  have ht : (s * ESTIMATED_TAX_RATE) * 100 = (m : ℚ) + 1/2 := by linarith
  have hte : (s * ESTIMATED_TAX_RATE) * 100 = (s * 100) * (17/200) := by
    unfold ESTIMATED_TAX_RATE; ring
  rw [hs] at hte
  rw [hte] at ht
  have hint : (34 * k + 17 : ℚ) = 400 * m + 200 := by linarith
  have hint2 : (34 * k + 17 : ℤ) = 400 * m + 200 := by exact_mod_cast hint
  omega

/-- Rounding the raw total differs from summing the three independently
rounded components by at most one cent. -/
theorem estTotalBound (s sh : ℚ) :
    |round2 (s + sh + s * ESTIMATED_TAX_RATE)
      - (round2 s + round2 sh + round2 (s * ESTIMATED_TAX_RATE))| ≤ 1/100 := by
  set t := s * ESTIMATED_TAX_RATE with htdef
  set S := s + sh + t with hSdef
  have hdecomp : round2 S - (round2 s + round2 sh + round2 t)
      = (round2 S - S) + (s - round2 s) + (sh - round2 sh) + (t - round2 t) := by
    rw [hSdef]; ring
  have hA := abs_round2_sub_le S
  have hB := abs_round2_sub_le s
  have hC := abs_round2_sub_le sh
  have hE := abs_round2_sub_le t
  have hstrict : |round2 S - (round2 s + round2 sh + round2 t)| < 1/50 := by
    rcases not_and_or.mp (not_tie_both s) with hns | hnt
    · have hBs : |round2 s - s| < 1/200 := abs_round2_sub_lt s hns
      rw [hdecomp]
      have e1 : |(round2 S - S) + (s - round2 s) + (sh - round2 sh) + (t - round2 t)|
          ≤ |round2 S - S| + |s - round2 s| + |sh - round2 sh| + |t - round2 t| := by
        calc |(round2 S - S) + (s - round2 s) + (sh - round2 sh) + (t - round2 t)|
            ≤ |(round2 S - S) + (s - round2 s) + (sh - round2 sh)| + |t - round2 t| :=
              abs_add _ _
          _ ≤ |(round2 S - S) + (s - round2 s)| + |sh - round2 sh| + |t - round2 t| := by
              have := abs_add ((round2 S - S) + (s - round2 s)) (sh - round2 sh)
              linarith
          _ ≤ |round2 S - S| + |s - round2 s| + |sh - round2 sh| + |t - round2 t| := by
              have := abs_add (round2 S - S) (s - round2 s)
              linarith
      have hBs2 : |s - round2 s| < 1/200 := by rwa [abs_sub_comm] at hBs
      have hC2 : |sh - round2 sh| ≤ 1/200 := by rwa [abs_sub_comm] at hC
      have hE2 : |t - round2 t| ≤ 1/200 := by rwa [abs_sub_comm] at hE
      linarith
    · have hEs : |round2 t - t| < 1/200 := abs_round2_sub_lt t hnt
      rw [hdecomp]
      have e1 : |(round2 S - S) + (s - round2 s) + (sh - round2 sh) + (t - round2 t)|
          ≤ |round2 S - S| + |s - round2 s| + |sh - round2 sh| + |t - round2 t| := by
        calc |(round2 S - S) + (s - round2 s) + (sh - round2 sh) + (t - round2 t)|
            ≤ |(round2 S - S) + (s - round2 s) + (sh - round2 sh)| + |t - round2 t| :=
              abs_add _ _
          _ ≤ |(round2 S - S) + (s - round2 s)| + |sh - round2 sh| + |t - round2 t| := by
              have := abs_add ((round2 S - S) + (s - round2 s)) (sh - round2 sh)
              linarith
          _ ≤ |round2 S - S| + |s - round2 s| + |sh - round2 sh| + |t - round2 t| := by
              have := abs_add (round2 S - S) (s - round2 s)
              linarith
      have hB2 : |s - round2 s| ≤ 1/200 := by rwa [abs_sub_comm] at hB
      have hC2 : |sh - round2 sh| ≤ 1/200 := by rwa [abs_sub_comm] at hC
      have hE2 : |t - round2 t| < 1/200 := by rwa [abs_sub_comm] at hEs
      linarith
  obtain ⟨a, ha⟩ := (cent_iff _).mp (round2_cent S)
  obtain ⟨b, hb⟩ := (cent_iff _).mp (round2_cent s)
  obtain ⟨c, hc⟩ := (cent_iff _).mp (round2_cent sh)
  obtain ⟨e, he⟩ := (cent_iff _).mp (round2_cent t)
  have hD : round2 S - (round2 s + round2 sh + round2 t)
      = ((a - b - c - e : ℤ) : ℚ) / 100 := by
    rw [ha, hb, hc, he]; push_cast; ring
  rw [hD] at hstrict ⊢
  rw [abs_div, show |(100:ℚ)| = 100 by norm_num] at hstrict ⊢
  rw [div_lt_iff₀ (by norm_num : (0:ℚ) < 100)] at hstrict
  rw [div_le_iff₀ (by norm_num : (0:ℚ) < 100)]
  have hcast : |((a - b - c - e : ℤ) : ℚ)| = ((|a - b - c - e| : ℤ) : ℚ) := by
    rw [Int.cast_abs]
  rw [hcast] at hstrict ⊢
  have hlt : |a - b - c - e| < 2 := by exact_mod_cast (by linarith : ((|a - b - c - e| : ℤ) : ℚ) < 2)
  have hle : |a - b - c - e| ≤ 1 := by omega
  have : ((|a - b - c - e| : ℤ) : ℚ) ≤ 1 := by exact_mod_cast hle
  linarith

/-- C3: whenever compute_order_details succeeds, the returned total equals
the 2-decimal rounding of subtotal plus shipping plus tax to within 0.01,
the three components being the independently rounded returned ones. -/
theorem total_within_cent_of_component_sum (products : List Product)
    (cart : List CartItemS) (recipient : RecipientInfo)
    (sresp : Except Unit (List Rate)) (eresp : Except Unit EstimateResult)
    (od : OrderDetails) (cart1 : List CartItemS)
    (h : compute_order_details products cart recipient sresp eresp = .ok (od, cart1)) :
    |od.total - round2 (od.subtotal + od.shipping_cost + od.tax_amount)| ≤ 1/100 := by
  rw [compute_eq] at h
  by_cases h1 : cart.isEmpty
  · rw [if_pos h1] at h; exact absurd h (by simp)
  · rw [if_neg h1] at h
    by_cases h2 : (printfulItemsOf products cart).isEmpty
    · rw [if_pos h2] at h; exact absurd h (by simp)
    · rw [if_neg h2] at h
      simp only [Except.ok.injEq, Prod.mk.injEq] at h
      rw [← h.1]
      dsimp only [estimatedDetails]
      rw [round2_eq_self
        (cent_add (cent_add (round2_cent _) (round2_cent _)) (round2_cent _))]
      exact estTotalBound _ _

/-- Witness for C3 at a concrete cart, recipient and failing provider calls. -/
theorem total_within_cent_witness :
    |(estimatedDetails [] w2cart w2recip (Except.error ()) none).total
      - round2 ((estimatedDetails [] w2cart w2recip (Except.error ()) none).subtotal
          + (estimatedDetails [] w2cart w2recip (Except.error ()) none).shipping_cost
          + (estimatedDetails [] w2cart w2recip (Except.error ()) none).tax_amount)| ≤ 1/100 :=
  total_within_cent_of_component_sum [] w2cart w2recip
    (Except.error ()) (Except.error ())
    (estimatedDetails [] w2cart w2recip (Except.error ()) none)
    (processedCart [] w2cart)
    (by
      rw [compute_eq]
      have h1 : w2cart.isEmpty = false := by decide
      have h2 : (printfulItemsOf [] w2cart).isEmpty = false := by decide
      simp [h1, h2])

/-! ## C1: exactness of the subtotal redistribution -/

theorem lineSum_nil : lineSum [] = 0 := rfl

theorem lineSum_cons (e : CartEntry) (l : List CartEntry) :
    lineSum (e :: l) = e.unit_price * (e.quantity : ℚ) + lineSum l := by
  simp [lineSum]

theorem lineSum_append (a b : List CartEntry) :
    lineSum (a ++ b) = lineSum a + lineSum b := by
  simp [lineSum]

theorem cent_lineSum {l : List CartEntry} (h : ∀ e ∈ l, Cent e.unit_price) :
    Cent (lineSum l) := by
  induction l with
  | nil => simpa [lineSum] using cent_zero
  | cons e rest ih =>
    rw [lineSum_cons]
    exact cent_add (cent_mul_int (h e (List.mem_cons_self e rest)) e.quantity)
      (ih fun x hx => h x (List.mem_cons_of_mem _ hx))

theorem cent_small_eq_zero {d : ℚ} (hc : Cent d) (h : |d| < 1/100) : d = 0 := by
  rw [cent_iff] at hc
  obtain ⟨n, rfl⟩ := hc
  rw [abs_div, show |(100:ℚ)| = 100 by norm_num,
      div_lt_iff₀ (by norm_num : (0:ℚ) < 100)] at h
  have h2 : |(n:ℚ)| < 1 := by linarith
  have h2b : ((|n| : ℤ) : ℚ) < 1 := by rwa [← Int.cast_abs] at h2
  have h3 : |n| < 1 := by exact_mod_cast h2b
  have h4 : n = 0 := by
    have h5 := abs_lt.mp h3
    omega
  rw [h4]
  norm_num

theorem sumQty_nonneg {l : List CartEntry} (hq : ∀ e ∈ l, 1 ≤ e.quantity) :
    0 ≤ sumQty l := by
  induction l with
  | nil => simp [sumQty]
  | cons e rest ih =>
    have h1 : 1 ≤ e.quantity := hq e (List.mem_cons_self e rest)
    have h2 : 0 ≤ sumQty rest := ih fun x hx => hq x (List.mem_cons_of_mem _ hx)
    have h3 : sumQty (e :: rest) = e.quantity + sumQty rest := by simp [sumQty]
    omega

theorem sumQty_pos {l : List CartEntry} (hne : l ≠ [])
    (hq : ∀ e ∈ l, 1 ≤ e.quantity) : 0 < sumQty l := by
  cases l with
  | nil => exact absurd rfl hne
  | cons e rest =>
    have h1 : 1 ≤ e.quantity := hq e (List.mem_cons_self e rest)
    have h2 : 0 ≤ sumQty rest := sumQty_nonneg fun x hx => hq x (List.mem_cons_of_mem _ hx)
    have h3 : sumQty (e :: rest) = e.quantity + sumQty rest := by simp [sumQty]
    omega

/-- Scaling phase invariants: the accumulated total is the line sum of the
adjusted entries, the adjusted entries are nonempty with exact-cent prices,
and last-entry quantities are preserved. -/
theorem redistributeCore_spec (entries : List CartEntry) (desired : ℚ)
    (hne : entries ≠ []) (hq : ∀ e ∈ entries, 1 ≤ e.quantity) :
    (redistributeCore entries desired).2 = lineSum (redistributeCore entries desired).1
    ∧ (redistributeCore entries desired).1 ≠ []
    ∧ (∀ e ∈ (redistributeCore entries desired).1, Cent e.unit_price)
    ∧ ((redistributeCore entries desired).1.getLast?).map (fun l => l.quantity)
        = (entries.getLast?).map (fun l => l.quantity) := by
  unfold redistributeCore
  by_cases hcur : 0 < round2 (lineSum entries)
  · rw [if_pos hcur]
    refine ⟨rfl, by simp [scaleEntries, hne], ?_, ?_⟩
    · intro e he
      unfold scaleEntries at he
      obtain ⟨x, _, rfl⟩ := List.mem_map.mp he
      exact round2_cent _
    · unfold scaleEntries
      rw [List.getLast?_map, Option.map_map]
      cases entries.getLast? <;> rfl
  · rw [if_neg hcur]
    rw [if_pos (sumQty_pos hne hq)]
    refine ⟨rfl, by simp [evenEntries, hne], ?_, ?_⟩
    · intro e he
      unfold evenEntries at he
      obtain ⟨x, _, rfl⟩ := List.mem_map.mp he
      exact round2_cent _
    · unfold evenEntries
      rw [List.getLast?_map, Option.map_map]
      cases entries.getLast? <;> rfl

/-- C1 (amended): when the last per-line entry has quantity 1 (quantities
positive, prices and the desired subtotal exact cent amounts as built by the
surrounding code), the redistribution makes the per-line totals sum exactly
to the authoritative subtotal. -/
theorem redistribute_exact_of_last_qty_one (entries : List CartEntry) (desired : ℚ)
    (hne : entries ≠ [])
    (hd : Cent desired) (hpos : 0 < desired)
    (hq : ∀ e ∈ entries, 1 ≤ e.quantity)
    (hlast : ∀ l, entries.getLast? = some l → l.quantity = 1) :
    lineSum (redistributeEntries entries desired) = desired := by
  unfold redistributeEntries
  rw [if_pos (And.intro hpos hne)]
  obtain ⟨hsum2, hne2, hcent2, hlastq⟩ := redistributeCore_spec entries desired hne hq
  have hcentsum : Cent (lineSum (redistributeCore entries desired).1) :=
    cent_lineSum hcent2
  have hdiff : round2 (desired - (redistributeCore entries desired).2)
      = desired - lineSum (redistributeCore entries desired).1 := by
    rw [hsum2]
    exact round2_eq_self (cent_sub hd hcentsum)
  by_cases hcase : 1/100 ≤ |round2 (desired - (redistributeCore entries desired).2)|
      ∧ (redistributeCore entries desired).1 ≠ []
  · rw [if_pos hcase]
    set es := (redistributeCore entries desired).1 with hes
    have hlne : es ≠ [] := hne2
    have hl : es.getLast? = some (es.getLast hlne) := List.getLast?_eq_getLast es hlne
    have hlmem : es.getLast hlne ∈ es := List.getLast_mem hlne
    have hlq : (es.getLast hlne).quantity = 1 := by
      cases hent : entries.getLast? with
      | none =>
        rw [List.getLast?_eq_getLast entries hne] at hent
        exact Option.noConfusion hent
      | some l0 =>
        have hqe := hlastq
        rw [hl, hent] at hqe
        have hqq : (es.getLast hlne).quantity = l0.quantity := by simpa using hqe
        rw [hqq]
        exact hlast l0 hent
    unfold setLastUnit
    rw [hl]
    have hmax : (((max (es.getLast hlne).quantity 1 : Int)) : ℚ) = 1 := by
      rw [hlq]
      norm_num
    have hprice : round2 ((es.getLast hlne).unit_price
        + round2 (desired - (redistributeCore entries desired).2)
          / ((max (es.getLast hlne).quantity 1 : Int) : ℚ))
        = (es.getLast hlne).unit_price + (desired - lineSum es) := by
      rw [hdiff, hmax, div_one]
      exact round2_eq_self (cent_add (hcent2 _ hlmem) (cent_sub hd hcentsum))
    rw [lineSum_append, lineSum_cons, lineSum_nil]
    dsimp only
    rw [hprice, hlq]
    have hsplit : lineSum es.dropLast + (es.getLast hlne).unit_price
        * ((es.getLast hlne).quantity : ℚ) = lineSum es := by
      conv_rhs => rw [← List.dropLast_append_getLast hlne]
      rw [lineSum_append, lineSum_cons, lineSum_nil]
      ring
    rw [hlq] at hsplit
    push_cast at hsplit ⊢
    linarith
  · rw [if_neg hcase]
    rcases not_and_or.mp hcase with hsmall | habs
    · have hlt : |round2 (desired - (redistributeCore entries desired).2)| < 1/100 :=
        lt_of_not_le hsmall
      rw [hdiff] at hlt
      have := cent_small_eq_zero (cent_sub hd hcentsum) hlt
      linarith [this]
    · exact absurd hne2 (by simpa using habs)

theorem round2_ratio_3001_300 : round2 (3001/300 : ℚ) = 10 := by
  unfold round2 roundHalfEven
  norm_num

/-- Counterexample to C1 as stated: with a single reallocated line of
quantity 3 at unit price 10.00 and authoritative subtotal 30.01 (a positive
exact-cent amount, as the reconciliation guard requires), the redistribution
leaves the line total at 30.00: the remainder correction divides the one-cent
diff by the quantity 3 and the re-rounding swallows it, so the totals do not
match the authoritative subtotal. -/
theorem reallocation_exactness_counterexample :
    (0:ℚ) < 3001/100 ∧ Cent (3001/100 : ℚ) ∧ Cent c1bad.unit_price
    ∧ lineSum (redistributeEntries [c1bad] (3001/100)) ≠ 3001/100 := by
  have hup : c1bad.unit_price = (10:ℚ) := rfl
  refine ⟨by norm_num, (cent_iff _).mpr ⟨3001, by norm_num⟩,
    (cent_iff _).mpr ⟨1000, by rw [hup]; norm_num⟩, ?_⟩
  have hls : lineSum [c1bad] = 30 := by
    rw [lineSum_cons, lineSum_nil, hup, show c1bad.quantity = 3 from rfl]
    norm_num
  have hcur : round2 (lineSum [c1bad]) = 30 := by
    rw [hls]
    exact round2_eq_self ((cent_iff _).mpr ⟨3000, by norm_num⟩)
  have hscaled : scaleEntries [c1bad] (3001/100) 30 = [c1bad] := by
    unfold scaleEntries
    rw [List.map_cons, List.map_nil]
    have harg : c1bad.unit_price * ((3001:ℚ)/100 / 30) = 3001/300 := by
      rw [hup]; norm_num
    rw [harg, round2_ratio_3001_300]
    rfl
  have hcore : redistributeCore [c1bad] (3001/100) = ([c1bad], 30) := by
    unfold redistributeCore
    rw [hcur, if_pos (by norm_num : (0:ℚ) < 30)]
    dsimp only
    rw [hscaled, hls]
  have hdiff : round2 ((3001:ℚ)/100 - 30) = 1/100 := by
    have harg : (3001:ℚ)/100 - 30 = 1/100 := by norm_num
    rw [harg]
    exact round2_eq_self ((cent_iff _).mpr ⟨1, by norm_num⟩)
  have hset : setLastUnit [c1bad] (1/100) = [c1bad] := by
    unfold setLastUnit
    rw [List.getLast?_singleton, List.dropLast_single]
    dsimp only
    have harg : c1bad.unit_price
        + (1:ℚ)/100 / ((max c1bad.quantity 1 : Int) : ℚ) = 3001/300 := by
      rw [hup, show c1bad.quantity = 3 from rfl, show (max (3:ℤ) 1) = 3 from rfl]
      norm_num
    rw [harg, round2_ratio_3001_300]
    rfl
  have hfinal : redistributeEntries [c1bad] (3001/100) = [c1bad] := by
    unfold redistributeEntries
    rw [if_pos (And.intro (by norm_num : (0:ℚ) < 3001/100)
      (by simp : ([c1bad] : List CartEntry) ≠ []))]
    dsimp only
    rw [hcore]
    dsimp only
    rw [hdiff]
    rw [if_pos (And.intro (le_abs_self ((1:ℚ)/100))
      (by simp : ([c1bad] : List CartEntry) ≠ []))]
    exact hset
  rw [hfinal, hls]
  norm_num

/-- Witness for the amended C1 at the spec scenario (quantities 3 and 1 at
prices 10.00 and 5.00, authoritative subtotal 30.00). -/
theorem redistribute_exact_witness :
    lineSum (redistributeEntries [c1pairA, c1pairB] 30) = 30 :=
  redistribute_exact_of_last_qty_one [c1pairA, c1pairB] 30 (by simp)
    ((cent_iff _).mpr ⟨3000, by norm_num⟩) (by norm_num)
    (by
      intro e he
      have h2 : e = c1pairA ∨ e = c1pairB := by simpa using he
      rcases h2 with rfl | rfl <;> norm_num [c1pairA, c1pairB])
    (by
      intro l hl
      have h2 : ([c1pairA, c1pairB] : List CartEntry).getLast? = some c1pairB := rfl
      rw [h2] at hl
      have h3 : l = c1pairB := by simpa using hl.symm
      rw [h3]
      rfl)

/-! ## C5: no-priceable-items failure of create_checkout_session -/

theorem entryLineItems_eq_filter (l : List CartEntry) :
    entryLineItems l
      = (l.filter (fun e => decide (0 < lineAmount e))).map mkEntryLineItem := by
  induction l with
  | nil => rfl
  | cons e rest ih =>
    unfold entryLineItems at ih ⊢
    rw [List.filterMap_cons, List.filter_cons]
    by_cases h : lineAmount e ≤ 0
    · have hnot : ¬ (0 < lineAmount e) := not_lt.mpr h
      simp [h, hnot, ih]
    · have hlt : 0 < lineAmount e := lt_of_not_le h
      simp [h, hlt, ih]

theorem entryLineItems_nil_iff (l : List CartEntry) :
    entryLineItems l = [] ↔ ∀ e ∈ l, lineAmount e ≤ 0 := by
  unfold entryLineItems
  rw [List.filterMap_eq_nil_iff]
  constructor
  · intro h e he
    have := h e he
    by_contra hgt
    rw [if_neg hgt] at this
    exact Option.noConfusion this
  · intro h e he
    rw [if_pos (h e he)]

/-- C5 (amended): the no-priceable-items 400 error is raised exactly when
every reallocated entry's Stripe amount is non-positive AND the shipping and
tax amounts are also non-positive; entries with non-positive amount are
skipped, and the shipping and tax line items are present exactly when their
amounts are positive. -/
theorem no_priceable_items_iff (od : OrderDetails) :
    (buildLineItems od = .error () ↔
      ((∀ e ∈ od.cart_entries, lineAmount e ≤ 0)
       ∧ od.shipping_cost ≤ 0 ∧ od.tax_amount ≤ 0))
    ∧ entryLineItems od.cart_entries
        = (od.cart_entries.filter (fun e => decide (0 < lineAmount e))).map mkEntryLineItem
    ∧ (shippingLineItems od ≠ [] ↔ 0 < od.shipping_cost)
    ∧ (taxLineItems od ≠ [] ↔ 0 < od.tax_amount) := by
  have hship : shippingLineItems od = [] ↔ ¬ 0 < od.shipping_cost := by
    unfold shippingLineItems
    by_cases h : 0 < od.shipping_cost
    · simp [h]
    · simp [h]
  have htax : taxLineItems od = [] ↔ ¬ 0 < od.tax_amount := by
    unfold taxLineItems
    by_cases h : 0 < od.tax_amount
    · simp [h]
    · simp [h]
  refine ⟨?_, entryLineItems_eq_filter od.cart_entries, ?_, ?_⟩
  · unfold buildLineItems
    constructor
    · intro h
      by_cases he : (entryLineItems od.cart_entries ++ shippingLineItems od
          ++ taxLineItems od).isEmpty
      · have hnil := List.isEmpty_iff.mp he
        rw [List.append_eq_nil, List.append_eq_nil] at hnil
        exact ⟨(entryLineItems_nil_iff od.cart_entries).mp hnil.1.1,
               not_lt.mp (hship.mp hnil.1.2), not_lt.mp (htax.mp hnil.2)⟩
      · rw [if_neg he] at h
        exact Except.noConfusion h
    · rintro ⟨h1, h2, h3⟩
      have he : entryLineItems od.cart_entries ++ shippingLineItems od
          ++ taxLineItems od = [] := by
        rw [List.append_eq_nil, List.append_eq_nil]
        exact ⟨⟨(entryLineItems_nil_iff od.cart_entries).mpr h1,
                hship.mpr (not_lt.mpr h2)⟩, htax.mpr (not_lt.mpr h3)⟩
      rw [he]
      rfl
  · rw [ne_eq, hship, not_not]
  · rw [ne_eq, htax, not_not]

/-- Counterexample to C5 as stated: a reachable order-details value whose
only reallocated entry has non-positive Stripe amount, yet building the line
items does not raise the no-priceable-items error, because the positive
fallback shipping cost contributes a line item. -/
theorem no_priceable_items_counterexample :
    compute_order_details [] c5cart w2recip (Except.error ()) (Except.error ())
      = .ok (estimatedDetails [] c5cart w2recip (Except.error ()) none,
             processedCart [] c5cart)
    ∧ (estimatedDetails [] c5cart w2recip (Except.error ()) none).cart_entries = [c5entry]
    ∧ lineAmount c5entry ≤ 0
    ∧ buildLineItems (estimatedDetails [] c5cart w2recip (Except.error ()) none)
        ≠ Except.error () := by
  have h0 : round2 (0:ℚ) = 0 := round2_eq_self cent_zero
  have h999 : round2 (999/100 : ℚ) = 999/100 :=
    round2_eq_self ((cent_iff _).mpr ⟨999, by norm_num⟩)
  have hentries : (estimatedDetails [] c5cart w2recip (Except.error ()) none).cart_entries
      = [c5entry] := by
    simp [estimatedDetails, cartOutputs, processEntry, entryMatchedVariant,
      productVariantList, findProduct, entryUnitPrice, truthyI, pyQty, c5cart, c5entry,
      h0]
  have hship : (estimatedDetails [] c5cart w2recip (Except.error ()) none).shipping_cost
      = 999/100 := by
    simp [estimatedDetails, shippingOutcome, h999]
  refine ⟨?_, hentries, ?_, ?_⟩
  · rw [compute_eq]
    have h1 : c5cart.isEmpty = false := by decide
    have h2 : (printfulItemsOf [] c5cart).isEmpty = false := by decide
    simp [h1, h2]
  · show roundHalfEven ((0:ℚ) * 100) ≤ 0
    norm_num [roundHalfEven]
  · unfold buildLineItems
    have hitems : entryLineItems
        (estimatedDetails [] c5cart w2recip (Except.error ()) none).cart_entries = [] := by
      rw [hentries]
      apply (entryLineItems_nil_iff _).mpr
      intro e he
      simp only [List.mem_singleton] at he
      rw [he]
      show roundHalfEven ((0:ℚ) * 100) ≤ 0
      norm_num [roundHalfEven]
    have hshipitems : shippingLineItems
        (estimatedDetails [] c5cart w2recip (Except.error ()) none) ≠ [] := by
      unfold shippingLineItems
      rw [hship]
      norm_num
    rw [hitems]
    cases hsl : shippingLineItems (estimatedDetails [] c5cart w2recip (Except.error ()) none) with
    | nil => exact absurd hsl hshipitems
    | cons a rest =>
      simp

/-! ## C8: resolution order and exclusion of unresolved entries -/

theorem findVariantBy_eq_find (p : Variant → Bool) :
    ∀ l : List Variant, findVariantBy p l = l.find? p := by
  intro l
  induction l with
  | nil => rfl
  | cons v rest ih =>
    rw [findVariantBy, List.find?_cons]
    by_cases hp : p v
    · simp [hp]
    · simp only [Bool.not_eq_true] at hp
      simp [hp, ih]

/-- C8: the code's matching loops realize exactly the declarative resolution
order sync id, then variant id, then size label (first match wins); an entry
for which no variant identifier is resolved contributes nothing, and dropping
such an entry from the cart leaves the Printful-facing item list of the other
entries unchanged. -/
theorem resolution_order_and_exclusion :
    (∀ item vs, resolveMatchedVariant item vs = specResolve item vs)
    ∧ (∀ products item, entryMatchedVariant products item = none →
        truthyI item.variant_id = false → (processEntry products item).2 = none)
    ∧ (∀ products cartA cartB item, entryMatchedVariant products item = none →
        truthyI item.variant_id = false →
        printfulItemsOf products (cartA ++ item :: cartB)
          = printfulItemsOf products (cartA ++ cartB)) := by
  have hskip : ∀ products item, entryMatchedVariant products item = none →
      truthyI item.variant_id = false → (processEntry products item).2 = none := by
    intro products item hm ht
    unfold processEntry
    rw [hm]
    simp [ht]
  refine ⟨?_, hskip, ?_⟩
  · intro item vs
    unfold resolveMatchedVariant specResolve
    rw [findVariantBy_eq_find, findVariantBy_eq_find, findVariantBy_eq_find]
  · intro products cartA cartB item hm ht
    unfold printfulItemsOf cartOutputs
    rw [List.map_append, List.map_append, List.map_cons,
        List.filterMap_append, List.filterMap_append, List.filterMap_cons,
        hskip products item hm ht]

/-- Witness for C8: a size-mismatched entry is dropped while its neighbour
still contributes. -/
theorem resolution_order_witness :
    printfulItemsOf w10products
        ([w10item] ++ ({ product_id := 1, size := some "XL", quantity := 1,
                         variant_id := none, variant_price := some 5,
                         sync_variant_id := none } : CartItemS) :: [])
      = printfulItemsOf w10products ([w10item] ++ []) :=
  resolution_order_and_exclusion.2.2 w10products [w10item] []
    { product_id := 1, size := some "XL", quantity := 1, variant_id := none,
      variant_price := some 5, sync_variant_id := none }
    (by decide) (by decide)

/-! ## C6: shipping fallback and selection -/

/-- C6: when the cart guards pass, a raised or empty shipping-rate call makes
compute_order_details succeed with the fixed 9.99 fallback shipping cost and
the "Fallback estimate" note; a successful call makes it succeed with the
first returned rate selected, its cost, and a note naming that rate. -/
theorem shipping_fallback_and_selection (products : List Product)
    (cart : List CartItemS) (recipient : RecipientInfo)
    (eresp : Except Unit EstimateResult)
    (hc : cart ≠ []) (hi : printfulItemsOf products cart ≠ []) :
    (∀ sresp, (sresp = Except.error () ∨ sresp = Except.ok []) →
      compute_order_details products cart recipient sresp eresp
        = .ok (estimatedDetails products cart recipient sresp none,
               processedCart products cart)
      ∧ (estimatedDetails products cart recipient sresp none).shipping_cost = 999/100
      ∧ (estimatedDetails products cart recipient sresp none).shipping_note
          = "Fallback estimate")
    ∧ (∀ r rs,
      compute_order_details products cart recipient (Except.ok (r :: rs)) eresp
        = .ok (estimatedDetails products cart recipient (Except.ok (r :: rs)) none,
               processedCart products cart)
      ∧ (estimatedDetails products cart recipient (Except.ok (r :: rs)) none).shipping_cost
          = round2 (r.rate.getD 0)
      ∧ (estimatedDetails products cart recipient (Except.ok (r :: rs)) none).shipping_note
          = (r.name.getD "Standard") ++ " via Printful"
      ∧ (estimatedDetails products cart recipient
            (Except.ok (r :: rs)) none).selected_shipping_rate = some r) := by
  have h1 : ¬ cart.isEmpty = true := fun h => hc (List.isEmpty_iff.mp h)
  have h2 : ¬ (printfulItemsOf products cart).isEmpty = true :=
    fun h => hi (List.isEmpty_iff.mp h)
  have hok : ∀ sresp, compute_order_details products cart recipient sresp eresp
      = .ok (estimatedDetails products cart recipient sresp none,
             processedCart products cart) := by
    intro sresp
    rw [compute_eq, if_neg h1, if_neg h2]
  have hcent : Cent (999/100 : ℚ) := (cent_iff _).mpr ⟨999, by norm_num⟩
  constructor
  · intro sresp hsr
    refine ⟨hok sresp, ?_, ?_⟩
    · rcases hsr with rfl | rfl <;>
        simp [estimatedDetails, shippingOutcome, round2_eq_self hcent]
    · rcases hsr with rfl | rfl <;>
        simp [estimatedDetails, shippingOutcome]
  · intro r rs
    refine ⟨hok _, ?_, ?_, ?_⟩ <;>
      simp [estimatedDetails, shippingOutcome]

/-- Witness for C6 at a concrete cart with a raised shipping call. -/
theorem shipping_fallback_witness :
    (estimatedDetails [] w2cart w2recip (Except.error ()) none).shipping_cost = 999/100
    ∧ (estimatedDetails [] w2cart w2recip (Except.error ()) none).shipping_note
        = "Fallback estimate" :=
  ((shipping_fallback_and_selection [] w2cart w2recip (Except.error ())
      (by decide) (by decide)).1 (Except.error ()) (Or.inl rfl)).2

/-! ## C7: idempotent checkout completion -/

/-- C7: with a stored pending order already marked fulfilled and matching the
session id, complete_checkout returns the stored summary, leaves the session
unchanged, and issues no Printful order-creation call, so calling it twice
gives the same stored result both times. -/
theorem complete_checkout_idempotent (st : SessionState) (po : PendingOrder)
    (sid : String) (h1 : st.pending_order = some po) (h2 : po.fulfilled = true)
    (h3 : po.checkout_session_id = sid)
    (sr1 sr2 : Except Unit String) (pr1 pr2 : Except String PrintfulOrderResult) :
    complete_checkout true st sid sr1 pr1
      = .ok ({ message := "Order already fulfilled", order_id := po.order_id,
               order := none, summary := po.summary }, st, false)
    ∧ complete_checkout true st sid sr2 pr2
      = .ok ({ message := "Order already fulfilled", order_id := po.order_id,
               order := none, summary := po.summary }, st, false) := by
  constructor <;> (unfold complete_checkout; rw [h1]; simp [h2, h3])

/-- Witness for C7 at a concrete fulfilled pending order. -/
theorem complete_checkout_idempotent_witness :
    complete_checkout true w7st "cs_1" (Except.ok "paid")
        (Except.ok { id := some 11 })
      = .ok ({ message := "Order already fulfilled", order_id := w7po.order_id,
               order := none, summary := w7po.summary }, w7st, false)
    ∧ complete_checkout true w7st "cs_1" (Except.error ())
        (Except.error "boom")
      = .ok ({ message := "Order already fulfilled", order_id := w7po.order_id,
               order := none, summary := w7po.summary }, w7st, false) :=
  complete_checkout_idempotent w7st w7po "cs_1" rfl rfl rfl
    (Except.ok "paid") (Except.error ()) (Except.ok { id := some 11 }) (Except.error "boom")

/-! ## C9: catalog product with variants count 0 -/

/-- C9: a raw product whose variants field is the integer 0 normalizes, for
any fetch flag and any provider responses, to sizes ["One Size"], in_stock
false, price 0 and no price_range. -/
theorem variants_count_zero_normalization (raw : RawPrintfulProduct)
    (fetch_variants : Bool) (detailResp : Except Unit ProductDetailResult)
    (variantsResp : Except Unit (List Variant))
    (metaResp : Int → Except Unit (Option MainCategory))
    (h : raw.variants = RawVariantsField.count 0) :
    (convert_printful_to_product raw fetch_variants detailResp variantsResp metaResp).map
        (fun p => (p.sizes, p.in_stock, p.price, p.price_range))
      = .ok (["One Size"], false, (0:ℚ), none) := by
  unfold convert_printful_to_product fetchedVariants
  rw [h]
  simp [priceScan, lt_irrefl, Except.map]

/-- Witness for C9 at a concrete raw product. -/
theorem variants_count_zero_witness :
    (convert_printful_to_product w9raw true (Except.error ()) (Except.error ())
        (fun _ => Except.error ())).map
        (fun p => (p.sizes, p.in_stock, p.price, p.price_range))
      = .ok (["One Size"], false, (0:ℚ), none) :=
  variants_count_zero_normalization w9raw true (Except.error ()) (Except.error ())
    (fun _ => Except.error ()) rfl

/-! ## C10: in-place cart mutation by compute_order_details -/

/-- Resolved-id write-back of one entry (main.py 184-197). -/
theorem processEntry_writeback (products : List Product) (item : CartItemS)
    (m : Variant) (hm : entryMatchedVariant products item = some m) :
    ((processEntry products item).1).variant_id = candidateId m
    ∧ ((processEntry products item).1).sync_variant_id = m.id := by
  unfold processEntry
  rw [hm]
  by_cases ht : truthyI (candidateId m)
  · rw [if_pos ht]
    obtain ⟨k, hk, hknz⟩ : ∃ k, candidateId m = some k ∧ ¬ k = 0 := by
      cases hcand : candidateId m with
      | none => rw [hcand] at ht; exact absurd ht (by simp [truthyI])
      | some k =>
        refine ⟨k, rfl, ?_⟩
        rw [hcand] at ht
        simp [truthyI] at ht
        intro hk0
        rw [hk0] at ht
        simp at ht
    cases hup : entryUnitPrice products item with
    | none => simp [hup, hk]
    | some up => simp [hup, hk]
  · rw [if_neg ht]
    exact ⟨rfl, rfl⟩

/-- C10: compute_order_details returns the session cart rewritten through the
per-entry processing, and every entry for which a variant was matched has the
resolved variant and sync-variant identifiers written back into the stored
item — a cost estimation therefore changes the stored cart state. -/
theorem compute_mutates_cart (products : List Product) (cart : List CartItemS)
    (recipient : RecipientInfo) (sresp : Except Unit (List Rate))
    (eresp : Except Unit EstimateResult) (od : OrderDetails) (cart1 : List CartItemS)
    (h : compute_order_details products cart recipient sresp eresp = .ok (od, cart1)) :
    cart1 = processedCart products cart
    ∧ ∀ item ∈ cart, ∀ m, entryMatchedVariant products item = some m →
        ((processEntry products item).1).variant_id = candidateId m
        ∧ ((processEntry products item).1).sync_variant_id = m.id := by
  constructor
  · rw [compute_eq] at h
    by_cases h1 : cart.isEmpty
    · rw [if_pos h1] at h; exact absurd h (by simp)
    · rw [if_neg h1] at h
      by_cases h2 : (printfulItemsOf products cart).isEmpty
      · rw [if_pos h2] at h; exact absurd h (by simp)
      · rw [if_neg h2] at h
        simp only [Except.ok.injEq, Prod.mk.injEq] at h
        exact h.2.symm
  · intro item _ m hm
    exact processEntry_writeback products item m hm

/-- Witness for C10 at a concrete size-matched cart entry. -/
theorem compute_mutates_cart_witness :
    ((processEntry w10products w10item).1).variant_id = candidateId w10variant
    ∧ ((processEntry w10products w10item).1).sync_variant_id = w10variant.id :=
  (compute_mutates_cart w10products w10cart w2recip (Except.error ()) (Except.error ())
      (estimatedDetails w10products w10cart w2recip (Except.error ()) none)
      (processedCart w10products w10cart)
      (by
        rw [compute_eq]
        have h1 : w10cart.isEmpty = false := by decide
        have h2 : (printfulItemsOf w10products w10cart).isEmpty = false := by decide
        simp [h1, h2])).2
    w10item (by decide) w10variant (by decide)

end Shop
